import Mathlib

/-!
Shallow embedding of `server.go` from sajal/dboxserver: a caching HTTP
front-end for a Dropbox folder.  The repository's `server.go` exists in two
revisions; the current one (Dropbox v2 SDK, with `robots.txt` / root-redirect
handling and `If-None-Match` support) is embedded in full below, and the
older revision's conditional MIME-type fix (`fixMimeV1`) is embedded
separately for comparison.

Modelling choices:
- timestamps are `Nat` (Go `time.Time`; `t.Before(u)` is strict `t < u`);
- byte slices (`[]byte`) are `String`;
- the Dropbox client is an oracle `RemoteStore` giving the outcome of
  `GetMetadata` and of `Download` (the latter merged with the subsequent
  `ioutil.ReadAll`, whose error handling in the code is identical);
- `mime.TypeByExtension` is an oracle `mimeDB : String → String` returning
  `""` for unknown extensions, exactly like the Go function;
- the cache map is a function `String → Option cacheobj`; `Get` returning
  `errNotCached` is modelled by `none`;
- an HTTP handler run is summarised by a `HandlerResult`: the list of
  logical response writes it performed (normally exactly one), the final
  cache, the remote calls issued, and whether it hit a nil-pointer
  dereference (Go panic);
- `r.Header.Get("If-None-Match")` returns `""` when the header is absent,
  so the request carries `Option String` and `headerGet` is `getD ""`.
-/

/-- Dropbox `files.FileMetadata`: the fields read by the server. -/
structure FileMetadata where
  rev : String
  serverModified : Nat
  deriving Repr, DecidableEq

/-- `type cacheobj struct` from server.go.  `lastmod` and `etag` are dead
fields in the source (never read or written past zero value); they are kept
for faithfulness.  The Go field `exists` is `exists'` here. -/
structure cacheobj where
  data : String
  lastmod : Nat
  etag : String
  lastFetch : Nat
  contentType : String
  exists' : Bool
  entry : Option FileMetadata
  deriving Repr, DecidableEq

/-- The cache map `map[string]*cacheobj`. -/
abbrev cache := String → Option cacheobj

/-- `func (c *cache) Get`: `none` models the `errNotCached` return. -/
def cache.Get (c : cache) (key : String) : Option cacheobj := c key

/-- `func (c *cache) Set`: replace the entry for `key`. -/
def cache.Set (c : cache) (key : String) (obj : cacheobj) : cache :=
  fun k => if k = key then some obj else c k

/-- The served folder (`-folder` flag, default `/Public`). -/
def folder : String := "/Public"

/-- An inbound request: its URL path and its `If-None-Match` header
(`none` when the header is absent). -/
structure Request where
  path : String
  ifNoneMatch : Option String
  deriving Repr, DecidableEq

/-- Go `r.Header.Get`: the empty string when the header is absent. -/
def headerGet (h : Option String) : String := h.getD ""

/-- A logical HTTP response write: status, the headers the handler sets
explicitly, and the body bytes written. -/
structure HttpResponse where
  status : Nat
  contentType : Option String
  etag : Option String
  lastModified : Option Nat
  location : Option String
  body : String
  deriving Repr, DecidableEq

/-- Go `http.Error(w, msg, code)`: sets `Content-Type: text/plain` and
writes `msg` followed by a newline as the body. -/
def httpError (msg : String) (code : Nat) : HttpResponse :=
  { status := code, contentType := some "text/plain; charset=utf-8",
    etag := none, lastModified := none, location := none, body := msg ++ "\n" }

/-- Outcome of `db.GetMetadata(files.NewGetMetadataArg(folder + key))`.
`folderMeta` is any metadata that is not a `*files.FileMetadata` (the type
assertion in the handler fails); `notFoundErr` is an API error whose text
contains `not_found`; `apiErr` is any other error. -/
inductive MetadataResult where
  | fileMeta : FileMetadata → MetadataResult
  | folderMeta : MetadataResult
  | notFoundErr : MetadataResult
  | apiErr : String → MetadataResult
  deriving Repr, DecidableEq

/-- A remote call issued while handling one request. -/
inductive RemoteCall where
  | metadataCall : String → RemoteCall
  | downloadCall : String → RemoteCall
  deriving Repr, DecidableEq

/-- The Dropbox client as an oracle: metadata outcome and download outcome
(download merged with the body read; both failure points get the same
handling in the source). -/
structure RemoteStore where
  getMetadata : String → MetadataResult
  download : String → Except String (FileMetadata × String)

/-- Result of running a handler: the response writes performed (in order),
the final cache, the remote calls issued, and whether a nil-pointer
dereference occurred. -/
structure HandlerResult where
  writes : List HttpResponse
  store : cache
  calls : List RemoteCall
  panicked : Bool

/-- `func dbhandlerServe`: serve an object from cache.  `none` models the
Go nil-pointer panic when a positive object has no metadata entry. -/
def dbhandlerServe (r : Request) (obj : cacheobj) : Option HttpResponse :=
  if obj.exists' = false then
    some (httpError "File not found" 404)
  else
    match obj.entry with
    | none => none
    | some e =>
      if headerGet r.ifNoneMatch = e.rev then
        some { status := 304, contentType := some obj.contentType,
               etag := some e.rev, lastModified := some e.serverModified,
               location := none, body := "" }
      else
        some { status := 200, contentType := some obj.contentType,
               etag := some e.rev, lastModified := some e.serverModified,
               location := none, body := obj.data }

/-- The negative object built by `dbhandlerNotFound`: Go zero values for
every field except `lastFetch`. -/
def negObj (now : Nat) : cacheobj :=
  { data := "", lastmod := 0, etag := "", lastFetch := now,
    contentType := "", exists' := false, entry := none }

/-- `func dbhandlerNotFound`: cache a negative entry and serve it.  Serving
a negative entry never panics, so the `getD` default is unreachable. -/
def dbhandlerNotFound (now : Nat) (r : Request) (c : cache) (key : String) :
    HttpResponse × cache :=
  let obj := negObj now
  let c' := cache.Set c key obj
  ((dbhandlerServe r obj).getD (httpError "File not found" 404), c')

/-- Helper for `splitOnDot`: split a character list at each `'.'`,
keeping empty segments, like Go's `strings.Split` with separator `"."`. -/
def splitCharAux : List Char → List Char → List (List Char)
  | [], acc => [acc.reverse]
  | c :: rest, acc =>
    if c = '.' then acc.reverse :: splitCharAux rest []
    else splitCharAux rest (c :: acc)

/-- Go `strings.Split(key, ".")`: never empty; a key without a dot yields
the one-element list `[key]`. -/
def splitOnDot (s : String) : List String :=
  (splitCharAux s.data []).map String.mk

/-- The MIME-type assignment of the current revision: `obj.contentType`
starts at `application/octet-stream` and is replaced by the extension's
table entry when the key has an extension the table knows. -/
def contentTypeForKey (mimeDB : String → String) (key : String) : String :=
  let base := "application/octet-stream"
  let s := splitOnDot key
  if s.length > 1 then
    let mtype := mimeDB ("." ++ s.getLastD "")
    if mtype ≠ "" then mtype else base
  else base

/-- The MIME-type fix of the older revision (`server.go`, v1 SDK): the
remote-reported type is corrected only when it is the generic fallback,
and kept unchanged otherwise. -/
def fixMimeV1 (mimeDB : String → String) (mimeType : String) (key : String) :
    String :=
  if mimeType = "application/octet-stream" then
    let s := splitOnDot key
    if s.length > 1 then
      let mtype := mimeDB ("." ++ s.getLastD "")
      if mtype ≠ "" then mtype else mimeType
    else mimeType
  else mimeType

/-- Append one serve step to a handler run: a panic while serving keeps the
writes so far. -/
def finishServe (r : Request) (obj : cacheobj) (preWrites : List HttpResponse)
    (c : cache) (calls : List RemoteCall) : HandlerResult :=
  match dbhandlerServe r obj with
  | some resp => ⟨preWrites ++ [resp], c, calls, false⟩
  | none => ⟨preWrites, c, calls, true⟩

/-- Download path of `dbhandlerMiss`: fetch the body, compute the content
type from the key's extension, store and serve. -/
def dbhandlerMissDownload (rs : RemoteStore) (mimeDB : String → String)
    (r : Request) (c : cache) (key : String) (obj0 : cacheobj)
    (preWrites : List HttpResponse) (preCalls : List RemoteCall) :
    HandlerResult :=
  let mkey := folder ++ key
  let calls := preCalls ++ [RemoteCall.downloadCall mkey]
  match rs.download mkey with
  | Except.error msg => ⟨preWrites ++ [httpError msg 500], c, calls, false⟩
  | Except.ok (dmeta, body) =>
    let obj := { obj0 with entry := some dmeta, data := body,
                           contentType := contentTypeForKey mimeDB key }
    let c' := cache.Set c key obj
    finishServe r obj preWrites c' calls

/-- Continuation of `dbhandlerMiss` after the metadata fetch and the type
assertion `entry, ok := tmp.(*files.FileMetadata)`.  When the assertion
failed (`entryOpt = none`) the not-found handler has already run — its
write and cache mutation arrive in `preWrites` / `c` — and, the source
missing a `return` there, execution continues with a nil `entry`:
comparing revisions against a non-nil old entry then dereferences nil. -/
def dbhandlerMissCont (rs : RemoteStore) (mimeDB : String → String)
    (now : Nat) (r : Request) (c : cache) (key : String)
    (oldobj : Option cacheobj) (entryOpt : Option FileMetadata)
    (preWrites : List HttpResponse) (preCalls : List RemoteCall) :
    HandlerResult :=
  let obj0 : cacheobj :=
    { data := "", lastmod := 0, etag := "", lastFetch := now,
      contentType := "", exists' := true, entry := entryOpt }
  match oldobj with
  | some old =>
    match old.entry with
    | some oldEntry =>
      match entryOpt with
      | none => ⟨preWrites, c, preCalls, true⟩
      | some newEntry =>
        if oldEntry.rev = newEntry.rev then
          let obj := { obj0 with data := old.data,
                                 contentType := old.contentType }
          let c' := cache.Set c key obj
          finishServe r obj preWrites c' preCalls
        else
          dbhandlerMissDownload rs mimeDB r c key obj0 preWrites preCalls
    | none => dbhandlerMissDownload rs mimeDB r c key obj0 preWrites preCalls
  | none => dbhandlerMissDownload rs mimeDB r c key obj0 preWrites preCalls

/-- `func dbhandlerMiss`: fetch metadata, cache 404s (also for non-file
metadata — where the source forgets to `return`), reuse an unchanged old
entry, otherwise download. -/
def dbhandlerMiss (rs : RemoteStore) (mimeDB : String → String) (now : Nat)
    (r : Request) (c : cache) (key : String) (oldobj : Option cacheobj) :
    HandlerResult :=
  let mkey := folder ++ key
  match rs.getMetadata mkey with
  | MetadataResult.notFoundErr =>
    let (resp, c') := dbhandlerNotFound now r c key
    ⟨[resp], c', [RemoteCall.metadataCall mkey], false⟩
  | MetadataResult.apiErr msg =>
    ⟨[httpError msg 500], c, [RemoteCall.metadataCall mkey], false⟩
  | MetadataResult.fileMeta e =>
    dbhandlerMissCont rs mimeDB now r c key oldobj (some e) []
      [RemoteCall.metadataCall mkey]
  | MetadataResult.folderMeta =>
    let (resp, c') := dbhandlerNotFound now r c key
    dbhandlerMissCont rs mimeDB now r c' key oldobj none [resp]
      [RemoteCall.metadataCall mkey]

/-- The fixed body served for `/robots.txt`. -/
def robotsBody : String := "User-agent: *\nDisallow: /\n"

/-- Response for `/robots.txt`: a plain `w.Write`, implicit status 200. -/
def robotsResp : HttpResponse :=
  { status := 200, contentType := none, etag := none, lastModified := none,
    location := none, body := robotsBody }

/-- Response for `/`: `http.Redirect` to the project repository with
`http.StatusFound` (the helper's courtesy HTML body is not modelled). -/
def redirectResp : HttpResponse :=
  { status := 302, contentType := none, etag := none, lastModified := none,
    location := some "https://github.com/sajal/dboxserver", body := "" }

/-- `func dbhandler`: the catch-all request handler.  `lmod` is the global
invalidation timestamp written by the long-poll loop. -/
def dbhandler (rs : RemoteStore) (mimeDB : String → String) (now : Nat)
    (lmod : Nat) (r : Request) (c : cache) : HandlerResult :=
  let key := r.path
  if key = "/robots.txt" then
    ⟨[robotsResp], c, [], false⟩
  else if key = "/" then
    ⟨[redirectResp], c, [], false⟩
  else
    match cache.Get c key with
    | none => dbhandlerMiss rs mimeDB now r c key none
    | some obj =>
      if obj.lastFetch < lmod then
        dbhandlerMiss rs mimeDB now r c key (some obj)
      else
        finishServe r obj [] c []

/-! ### Concrete fixtures used by witnesses and counterexamples -/

/-- The `.json` row of the standard extension table (`mime.TypeByExtension`
returns `""` for the other extensions here). -/
def mimeDB0 : String → String :=
  fun ext => if ext = ".json" then "application/json" else ""

/-- Concrete file metadata. -/
def meta0 : FileMetadata := { rev := "rev1", serverModified := 7 }

/-- The empty cache. -/
def cEmpty : cache := fun _ => none

/-- A remote store holding exactly the file `/Public/a.json`. -/
def rs0 : RemoteStore :=
  { getMetadata := fun p =>
      if p = "/Public/a.json" then MetadataResult.fileMeta meta0
      else MetadataResult.notFoundErr,
    download := fun p =>
      if p = "/Public/a.json" then Except.ok (meta0, "hello")
      else Except.error "download failed" }

/-- A concrete positive cache object. -/
def objPos : cacheobj :=
  { data := "hello", lastmod := 0, etag := "", lastFetch := 3,
    contentType := "application/json", exists' := true, entry := some meta0 }

/-- The entry built by the revision-reuse branch of `dbhandlerMiss`: fresh
`lastFetch` and metadata, `data` and `contentType` copied from the old
entry. -/
def reuseObj (old : cacheobj) (now : Nat) (e : FileMetadata) : cacheobj :=
  { data := old.data, lastmod := 0, etag := "", lastFetch := now,
    contentType := old.contentType, exists' := true, entry := some e }

/-- A remote store where every path is a directory (any non-file
metadata) and every download fails, as Dropbox downloads of folders do. -/
def rsDir : RemoteStore :=
  { getMetadata := fun _ => MetadataResult.folderMeta,
    download := fun _ => Except.error "path/not_file/" }

/-- A remote store where every path is missing. -/
def rsMissing : RemoteStore :=
  { getMetadata := fun _ => MetadataResult.notFoundErr,
    download := fun _ => Except.error "missing" }

/-- A remote store failing with a non-not-found API error. -/
def rsApiErr : RemoteStore :=
  { getMetadata := fun _ => MetadataResult.apiErr "too_many_requests",
    download := fun _ => Except.error "too_many_requests" }

/-- A remote store where metadata resolves to a file but the download
fails. -/
def rsBadDownload : RemoteStore :=
  { getMetadata := fun _ => MetadataResult.fileMeta meta0,
    download := fun _ => Except.error "network error" }

/-- File metadata whose revision is the empty string. -/
def metaEmptyRev : FileMetadata := { rev := "", serverModified := 3 }

/-- A remote store serving every path as a file with the empty revision. -/
def rsEmptyRev : RemoteStore :=
  { getMetadata := fun _ => MetadataResult.fileMeta metaEmptyRev,
    download := fun _ => Except.ok (metaEmptyRev, "hello") }

/-- A negative cache object carries no metadata entry (hence no revision),
no body and no content type (and an empty etag field). -/
def negClean (obj : cacheobj) : Prop :=
  obj.exists' = false →
    obj.entry = none ∧ obj.data = "" ∧ obj.contentType = "" ∧ obj.etag = ""

/-- Every entry present in the cache satisfies `negClean`. -/
def cacheClean (c : cache) : Prop :=
  ∀ key obj, cache.Get c key = some obj → negClean obj

/-! ### C10 -/

/-- C10: cache frame property.  Storing an entry under `k1` leaves the
lookup of any other key `k2` unchanged, the stored entry is what `Get k1`
then returns, and `Get` is read-only, so repeated lookups agree. -/
theorem c10_cache_frame (c : cache) (k1 k2 : String) (e : cacheobj)
    (hne : k2 ≠ k1) :
    cache.Get (cache.Set c k1 e) k2 = cache.Get c k2
    ∧ cache.Get (cache.Set c k1 e) k1 = some e
    ∧ ∀ k : String, cache.Get c k = cache.Get c k := by
  refine ⟨?_, ?_, fun _ => rfl⟩
  · simp [cache.Get, cache.Set, hne]
  · simp [cache.Get, cache.Set]

/-- C10 witness: the frame property applied at concrete keys. -/
theorem c10_cache_frame_witness :
    cache.Get (cache.Set cEmpty "/a" (negObj 0)) "/b" = cache.Get cEmpty "/b"
    ∧ cache.Get (cache.Set cEmpty "/a" (negObj 0)) "/a" = some (negObj 0)
    ∧ ∀ k : String, cache.Get cEmpty k = cache.Get cEmpty k :=
  c10_cache_frame cEmpty "/a" "/b" (negObj 0) (by decide)

/-! ### C9 -/

/-- C9: the reserved paths `/robots.txt` and `/` are answered before the
cache or the remote store is consulted: the cache is returned unchanged, no
remote call is made, and the response is respectively the fixed
disallow-all body and a 302 redirect to the project repository. -/
theorem c9_reserved_paths (rs : RemoteStore) (mimeDB : String → String)
    (now lmod : Nat) (c : cache) (inm1 inm2 : Option String) :
    dbhandler rs mimeDB now lmod ⟨"/robots.txt", inm1⟩ c =
      ⟨[robotsResp], c, [], false⟩
    ∧ dbhandler rs mimeDB now lmod ⟨"/", inm2⟩ c =
      ⟨[redirectResp], c, [], false⟩
    ∧ robotsResp.body = "User-agent: *\nDisallow: /\n"
    ∧ redirectResp.status = 302
    ∧ redirectResp.location = some "https://github.com/sajal/dboxserver" := by
  refine ⟨?_, ?_, rfl, rfl, rfl⟩
  · simp [dbhandler]
  · simp [dbhandler]

/-! ### C7 -/

/-- C7 counterexample: serving a negative entry writes the fixed error
text "File not found" (plus newline) as the response body, so the
not-found response does carry a body, contrary to the claim. -/
theorem c7_counterexample :
    dbhandlerServe ⟨"/x", none⟩ (negObj 5) =
      some { status := 404, contentType := some "text/plain; charset=utf-8",
             etag := none, lastModified := none, location := none,
             body := "File not found\n" }
    ∧ ("File not found\n" : String) ≠ "" := by
  decide

/-- C7 (amended): for every cache entry with `exists=false`, serving it
emits a not-found (404) response whose body is the fixed error message
"File not found" followed by a newline, written by Go's `http.Error`. -/
theorem c7_negative_serve (r : Request) (obj : cacheobj)
    (hneg : obj.exists' = false) :
    dbhandlerServe r obj = some (httpError "File not found" 404)
    ∧ (httpError "File not found" 404).status = 404
    ∧ (httpError "File not found" 404).body = "File not found\n" := by
  refine ⟨?_, rfl, rfl⟩
  simp [dbhandlerServe, hneg]

/-- C7 witness: the amended statement applied to the negative object the
not-found handler builds. -/
theorem c7_negative_serve_witness :
    dbhandlerServe ⟨"/x", none⟩ (negObj 5) = some (httpError "File not found" 404)
    ∧ (httpError "File not found" 404).status = 404
    ∧ (httpError "File not found" 404).body = "File not found\n" :=
  c7_negative_serve ⟨"/x", none⟩ (negObj 5) rfl

/-! ### C2 -/

/-- C2: fresh cache hit.  For a non-reserved path with a cached entry whose
`lastFetch` is not strictly before the invalidation timestamp `lmod`
(i.e. `fetchedAt.Before(lastInvalidatedAt) == false`, so equal timestamps
count as fresh), the handler serves that entry as is: the cache is
unchanged and no remote call is made. -/
theorem c2_fresh_cache_hit (rs : RemoteStore) (mimeDB : String → String)
    (now lmod : Nat) (r : Request) (c : cache) (obj : cacheobj)
    (hr1 : r.path ≠ "/robots.txt") (hr2 : r.path ≠ "/")
    (hhit : cache.Get c r.path = some obj)
    (hfresh : ¬ obj.lastFetch < lmod) :
    dbhandler rs mimeDB now lmod r c =
      ⟨(dbhandlerServe r obj).toList, c, [], (dbhandlerServe r obj).isNone⟩ := by
  simp only [dbhandler, hr1, hr2, if_neg, ite_false, hhit, hfresh, if_false]
  cases h : dbhandlerServe r obj with
  | none => simp [finishServe, h]
  | some resp => simp [finishServe, h]

/-- C2 witness: an entry fetched in the same instant as the invalidation
(`lastFetch = lmod = 5`) is still served from cache. -/
theorem c2_fresh_cache_hit_witness :
    dbhandler rs0 mimeDB0 9 5 ⟨"/b.txt", none⟩
        (cache.Set cEmpty "/b.txt" { objPos with lastFetch := 5 }) =
      ⟨(dbhandlerServe ⟨"/b.txt", none⟩ { objPos with lastFetch := 5 }).toList,
       cache.Set cEmpty "/b.txt" { objPos with lastFetch := 5 }, [],
       (dbhandlerServe ⟨"/b.txt", none⟩ { objPos with lastFetch := 5 }).isNone⟩ :=
  c2_fresh_cache_hit rs0 mimeDB0 9 5 ⟨"/b.txt", none⟩
    (cache.Set cEmpty "/b.txt" { objPos with lastFetch := 5 })
    { objPos with lastFetch := 5 } (by decide) (by decide) (by decide) (by decide)

/-! ### C3 -/

/-- C3: revision reuse.  For a stale path whose previous cached entry is
positive and whose revision equals the freshly fetched metadata's revision,
the new entry (`reuseObj`) copies `data` and `contentType` from the old
entry, no download call is issued (only the metadata call), and the new
entry is stored and served. -/
theorem c3_revision_reuse (rs : RemoteStore) (mimeDB : String → String)
    (now lmod : Nat) (r : Request) (c : cache) (old : cacheobj)
    (oe e : FileMetadata)
    (hr1 : r.path ≠ "/robots.txt") (hr2 : r.path ≠ "/")
    (hhit : cache.Get c r.path = some old)
    (hstale : old.lastFetch < lmod)
    (hpos : old.exists' = true) (hentry : old.entry = some oe)
    (hmeta : rs.getMetadata (folder ++ r.path) = MetadataResult.fileMeta e)
    (hrev : oe.rev = e.rev) :
    dbhandler rs mimeDB now lmod r c =
      ⟨(dbhandlerServe r (reuseObj old now e)).toList,
       cache.Set c r.path (reuseObj old now e),
       [RemoteCall.metadataCall (folder ++ r.path)],
       (dbhandlerServe r (reuseObj old now e)).isNone⟩ := by
  simp only [dbhandler, hr1, hr2, if_neg, ite_false, hhit, hstale, if_true,
    dbhandlerMiss, hmeta, dbhandlerMissCont, hentry, hrev, if_pos, reuseObj]
  cases h : dbhandlerServe r (reuseObj old now e) with
  | none => simp only [reuseObj] at h; simp [finishServe, h]
  | some resp => simp only [reuseObj] at h; simp [finishServe, h]

/-- C3 witness: a stale positive entry for `/a.json` with the same revision
as the fresh metadata is reused without a download call. -/
theorem c3_revision_reuse_witness :
    dbhandler rs0 mimeDB0 9 5 ⟨"/a.json", none⟩
        (cache.Set cEmpty "/a.json" { objPos with lastFetch := 4 }) =
      ⟨(dbhandlerServe ⟨"/a.json", none⟩
          (reuseObj { objPos with lastFetch := 4 } 9 meta0)).toList,
       cache.Set (cache.Set cEmpty "/a.json" { objPos with lastFetch := 4 })
         "/a.json" (reuseObj { objPos with lastFetch := 4 } 9 meta0),
       [RemoteCall.metadataCall (folder ++ "/a.json")],
       (dbhandlerServe ⟨"/a.json", none⟩
          (reuseObj { objPos with lastFetch := 4 } 9 meta0)).isNone⟩ :=
  c3_revision_reuse rs0 mimeDB0 9 5 ⟨"/a.json", none⟩
    (cache.Set cEmpty "/a.json" { objPos with lastFetch := 4 })
    { objPos with lastFetch := 4 } meta0 meta0
    (by decide) (by decide) (by decide) (by decide) rfl rfl (by decide) rfl

/-! ### C1 -/

/-- C1: content-type correction.  The older revision's `fixMimeV1` keeps a
remote-reported type other than the generic fallback unchanged, and
replaces the fallback by the extension table's entry exactly when the key
has an extension the table knows; the current revision's `contentTypeForKey`
coincides with that correction applied to the fallback (the v2 metadata
carries no remote MIME type, the provider's default being the fallback for
all content), and a successful cold fetch serves that content type. -/
theorem c1_content_type_correction (mimeDB : String → String)
    (mt : String) (rs : RemoteStore) (now lmod : Nat) (r : Request)
    (c : cache) (e dmeta : FileMetadata) (body : String)
    (hr1 : r.path ≠ "/robots.txt") (hr2 : r.path ≠ "/")
    (hcold : cache.Get c r.path = none)
    (hmeta : rs.getMetadata (folder ++ r.path) = MetadataResult.fileMeta e)
    (hdl : rs.download (folder ++ r.path) = Except.ok (dmeta, body)) :
    (mt ≠ "application/octet-stream" → fixMimeV1 mimeDB mt r.path = mt)
    ∧ fixMimeV1 mimeDB "application/octet-stream" r.path =
        (if 1 < (splitOnDot r.path).length ∧
            mimeDB ("." ++ (splitOnDot r.path).getLastD "") ≠ ""
         then mimeDB ("." ++ (splitOnDot r.path).getLastD "")
         else "application/octet-stream")
    ∧ contentTypeForKey mimeDB r.path =
        fixMimeV1 mimeDB "application/octet-stream" r.path
    ∧ ∃ resp, (dbhandler rs mimeDB now lmod r c).writes = [resp]
        ∧ resp.contentType = some (contentTypeForKey mimeDB r.path) := by
  refine ⟨?_, ?_, ?_, ?_⟩
  · intro h
    simp [fixMimeV1, h]
  · by_cases hlen : 1 < (splitOnDot r.path).length
    · by_cases hm : mimeDB ("." ++ (splitOnDot r.path).getLastD "") = ""
      · simp [fixMimeV1, hlen, hm]
      · simp [fixMimeV1, hlen, hm]
    · simp [fixMimeV1, hlen]
  · simp [contentTypeForKey, fixMimeV1]
  · by_cases hh : headerGet r.ifNoneMatch = dmeta.rev
    · refine ⟨{ status := 304,
                contentType := some (contentTypeForKey mimeDB r.path),
                etag := some dmeta.rev,
                lastModified := some dmeta.serverModified,
                location := none, body := "" }, ?_, rfl⟩
      simp [dbhandler, hr1, hr2, hcold, dbhandlerMiss, hmeta,
        dbhandlerMissCont, dbhandlerMissDownload, hdl, finishServe,
        dbhandlerServe, hh]
    · refine ⟨{ status := 200,
                contentType := some (contentTypeForKey mimeDB r.path),
                etag := some dmeta.rev,
                lastModified := some dmeta.serverModified,
                location := none, body := body }, ?_, rfl⟩
      simp [dbhandler, hr1, hr2, hcold, dbhandlerMiss, hmeta,
        dbhandlerMissCont, dbhandlerMissDownload, hdl, finishServe,
        dbhandlerServe, hh]

/-- C1 witness: `/a.json` with the fallback remote type is served as
`application/json`; a native type `text/html` would be kept unchanged. -/
theorem c1_content_type_correction_witness :
    (("text/html" : String) ≠ "application/octet-stream" →
      fixMimeV1 mimeDB0 "text/html" "/a.json" = "text/html")
    ∧ fixMimeV1 mimeDB0 "application/octet-stream" "/a.json" =
        (if 1 < (splitOnDot "/a.json").length ∧
            mimeDB0 ("." ++ (splitOnDot "/a.json").getLastD "") ≠ ""
         then mimeDB0 ("." ++ (splitOnDot "/a.json").getLastD "")
         else "application/octet-stream")
    ∧ contentTypeForKey mimeDB0 "/a.json" =
        fixMimeV1 mimeDB0 "application/octet-stream" "/a.json"
    ∧ ∃ resp, (dbhandler rs0 mimeDB0 1 0 ⟨"/a.json", none⟩ cEmpty).writes =
          [resp]
        ∧ resp.contentType = some (contentTypeForKey mimeDB0 "/a.json") :=
  c1_content_type_correction mimeDB0 "text/html" rs0 1 0 ⟨"/a.json", none⟩
    cEmpty meta0 meta0 "hello" (by decide) (by decide) rfl (by decide) rfl

/-! ### C4 -/

/-- C4: directory handling.  In the genuine not-found case the handler
caches a negative entry, writes one 404, and issues only the metadata call.
In the directory case the negative entry is cached and the 404 written,
but — the source missing a `return` after the failed type assertion —
execution falls through: a further `Download` remote call is issued and a
second (server-error) write is performed, contradicting "behaves
identically to the remote not-found case ... no further remote calls". -/
theorem c4_directory_fallthrough :
    (dbhandler rsMissing mimeDB0 5 9 ⟨"/somedir", none⟩ cEmpty).calls =
        [RemoteCall.metadataCall "/Public/somedir"]
    ∧ (dbhandler rsMissing mimeDB0 5 9 ⟨"/somedir", none⟩ cEmpty).writes =
        [httpError "File not found" 404]
    ∧ cache.Get (dbhandler rsMissing mimeDB0 5 9 ⟨"/somedir", none⟩
        cEmpty).store "/somedir" = some (negObj 5)
    ∧ (dbhandler rsDir mimeDB0 5 9 ⟨"/somedir", none⟩ cEmpty).calls =
        [RemoteCall.metadataCall "/Public/somedir",
         RemoteCall.downloadCall "/Public/somedir"]
    ∧ (dbhandler rsDir mimeDB0 5 9 ⟨"/somedir", none⟩ cEmpty).writes =
        [httpError "File not found" 404, httpError "path/not_file/" 500]
    ∧ cache.Get (dbhandler rsDir mimeDB0 5 9 ⟨"/somedir", none⟩
        cEmpty).store "/somedir" = some (negObj 5) := by
  decide

/-! ### C5 -/

/-- C5: cache-mutation policy.  A non-not-found metadata error and a plain
download failure indeed leave the cache untouched and answer 500; but for a
path whose metadata resolves to a directory and whose download then fails,
the cache HAS been mutated during the failed request (a negative entry was
stored before the download was attempted), refuting "the body download
fails ⟹ the cache is not mutated for that path". -/
theorem c5_failed_download_mutates_cache :
    ((dbhandler rsApiErr mimeDB0 5 9 ⟨"/x", none⟩ cEmpty).writes =
        [httpError "too_many_requests" 500]
      ∧ cache.Get (dbhandler rsApiErr mimeDB0 5 9 ⟨"/x", none⟩
          cEmpty).store "/x" = none)
    ∧ ((dbhandler rsBadDownload mimeDB0 5 9 ⟨"/x", none⟩ cEmpty).writes =
        [httpError "network error" 500]
      ∧ cache.Get (dbhandler rsBadDownload mimeDB0 5 9 ⟨"/x", none⟩
          cEmpty).store "/x" = none)
    ∧ (rsDir.download "/Public/dir" = Except.error "path/not_file/"
      ∧ cache.Get cEmpty "/dir" = none
      ∧ cache.Get (dbhandler rsDir mimeDB0 5 9 ⟨"/dir", none⟩
          cEmpty).store "/dir" = some (negObj 5)) := by
  refine ⟨⟨by decide, by decide⟩, ⟨by decide, by decide⟩,
    rfl, rfl, by decide⟩

/-! ### C8 -/

/-- The negative object is clean. -/
theorem negClean_negObj (now : Nat) : negClean (negObj now) :=
  fun _ => ⟨rfl, rfl, rfl, rfl⟩

/-- A positive object is vacuously clean. -/
theorem negClean_pos (obj : cacheobj) (h : obj.exists' = true) :
    negClean obj := by
  intro hfalse
  rw [h] at hfalse
  cases hfalse

/-- `Set` preserves cleanliness when the written object is clean. -/
theorem cacheClean_set (c : cache) (key : String) (obj : cacheobj)
    (hc : cacheClean c) (hobj : negClean obj) :
    cacheClean (cache.Set c key obj) := by
  intro k o hk
  unfold cache.Get cache.Set at hk
  by_cases hkey : k = key
  · rw [if_pos hkey] at hk
    injection hk with h
    exact h ▸ hobj
  · rw [if_neg hkey] at hk
    exact hc k o hk

/-- `finishServe` does not touch the cache it is given. -/
theorem cacheClean_finishServe (r : Request) (obj : cacheobj)
    (w : List HttpResponse) (c : cache) (calls : List RemoteCall)
    (hc : cacheClean c) : cacheClean (finishServe r obj w c calls).store := by
  unfold finishServe
  cases dbhandlerServe r obj <;> exact hc

/-- The download path writes only positive objects. -/
theorem cacheClean_download (rs : RemoteStore) (mimeDB : String → String)
    (r : Request) (c : cache) (key : String) (obj0 : cacheobj)
    (w : List HttpResponse) (calls : List RemoteCall)
    (hc : cacheClean c) (hpos : obj0.exists' = true) :
    cacheClean (dbhandlerMissDownload rs mimeDB r c key obj0 w calls).store := by
  simp only [dbhandlerMissDownload]
  cases hdl : rs.download (folder ++ key) with
  | error msg => exact hc
  | ok pr =>
    obtain ⟨dmeta, body⟩ := pr
    dsimp only
    apply cacheClean_finishServe
    apply cacheClean_set _ _ _ hc
    apply negClean_pos
    exact hpos

/-- The continuation after the metadata fetch writes only positive
objects. -/
theorem cacheClean_cont (rs : RemoteStore) (mimeDB : String → String)
    (now : Nat) (r : Request) (c : cache) (key : String)
    (oldobj : Option cacheobj) (entryOpt : Option FileMetadata)
    (w : List HttpResponse) (calls : List RemoteCall)
    (hc : cacheClean c) :
    cacheClean
      (dbhandlerMissCont rs mimeDB now r c key oldobj entryOpt w calls).store := by
  simp only [dbhandlerMissCont]
  cases oldobj with
  | none =>
    dsimp only
    apply cacheClean_download _ _ _ _ _ _ _ _ hc
    rfl
  | some old =>
    dsimp only
    cases hoe : old.entry with
    | none =>
      apply cacheClean_download _ _ _ _ _ _ _ _ hc
      rfl
    | some oldEntry =>
      cases entryOpt with
      | none => exact hc
      | some newEntry =>
        dsimp only
        by_cases hrev : oldEntry.rev = newEntry.rev
        · rw [if_pos hrev]
          apply cacheClean_finishServe
          apply cacheClean_set _ _ _ hc
          apply negClean_pos
          rfl
        · rw [if_neg hrev]
          apply cacheClean_download _ _ _ _ _ _ _ _ hc
          rfl

/-- `dbhandlerMiss` preserves cleanliness. -/
theorem cacheClean_miss (rs : RemoteStore) (mimeDB : String → String)
    (now : Nat) (r : Request) (c : cache) (key : String)
    (oldobj : Option cacheobj) (hc : cacheClean c) :
    cacheClean (dbhandlerMiss rs mimeDB now r c key oldobj).store := by
  simp only [dbhandlerMiss, dbhandlerNotFound]
  cases hmd : rs.getMetadata (folder ++ key) with
  | fileMeta e =>
    dsimp only
    exact cacheClean_cont _ _ _ _ _ _ _ _ _ _ hc
  | folderMeta =>
    dsimp only
    exact cacheClean_cont _ _ _ _ _ _ _ _ _ _
      (cacheClean_set _ _ _ hc (negClean_negObj now))
  | notFoundErr =>
    dsimp only
    exact cacheClean_set _ _ _ hc (negClean_negObj now)
  | apiErr msg => exact hc

/-- C8: every entry the handler ever stores with `exists=false` carries no
metadata entry (hence no revision), no body and no content type; the
invariant `cacheClean` is preserved by a full handler step, whichever code
path (negative caching, revision reuse, download, errors) it takes. -/
theorem c8_negative_entry_invariant (rs : RemoteStore)
    (mimeDB : String → String) (now lmod : Nat) (r : Request) (c : cache)
    (hc : cacheClean c) :
    cacheClean (dbhandler rs mimeDB now lmod r c).store := by
  simp only [dbhandler]
  by_cases h1 : r.path = "/robots.txt"
  · rw [if_pos h1]
    exact hc
  · rw [if_neg h1]
    by_cases h2 : r.path = "/"
    · rw [if_pos h2]
      exact hc
    · rw [if_neg h2]
      cases hget : cache.Get c r.path with
      | none =>
        dsimp only
        exact cacheClean_miss _ _ _ _ _ _ _ hc
      | some obj =>
        dsimp only
        by_cases hstale : obj.lastFetch < lmod
        · rw [if_pos hstale]
          exact cacheClean_miss _ _ _ _ _ _ _ hc
        · rw [if_neg hstale]
          exact cacheClean_finishServe _ _ _ _ _ hc

/-- C8 witness: starting from the empty cache (trivially clean), one
handler step leaves a clean cache. -/
theorem c8_negative_entry_invariant_witness :
    cacheClean cEmpty
    ∧ cacheClean ((dbhandler rs0 mimeDB0 1 0 ⟨"/a.json", none⟩ cEmpty).store) :=
  ⟨fun _ _ h => Option.noConfusion h,
   c8_negative_entry_invariant rs0 mimeDB0 1 0 ⟨"/a.json", none⟩ cEmpty
     (fun _ _ h => Option.noConfusion h)⟩

/-! ### C6 -/

/-- C6 counterexample: a positive entry whose revision is the empty string
(as the remote store reported it) is served `304 Not Modified` with an
empty body to a request that carries no `If-None-Match` header at all,
because Go's `Header.Get` returns `""` for the absent header and `"" ==
rev` then holds; the claim requires the full body with a success status
for every absent `If-None-Match`. -/
theorem c6_counterexample :
    (dbhandler rsEmptyRev mimeDB0 1 0 ⟨"/x", none⟩ cEmpty).writes =
      [{ status := 304, contentType := some "application/octet-stream",
         etag := some "", lastModified := some 3, location := none,
         body := "" }]
    ∧ cache.Get (dbhandler rsEmptyRev mimeDB0 1 0 ⟨"/x", none⟩
          cEmpty).store "/x" =
        some { data := "hello", lastmod := 0, etag := "", lastFetch := 1,
               contentType := "application/octet-stream", exists' := true,
               entry := some metaEmptyRev } := by
  decide

/-- C6 (amended): when serving a positive cached entry, the absent
`If-None-Match` header is treated as the empty-string value; the response
is `304` with an empty body exactly when that value equals the entry's
revision (so an entry with the empty revision is served `304` to requests
without the header), and the full cached body with status `200`
otherwise. -/
theorem c6_conditional_request (r : Request) (obj : cacheobj)
    (e : FileMetadata) (hpos : obj.exists' = true)
    (hentry : obj.entry = some e) :
    (headerGet r.ifNoneMatch = e.rev →
      dbhandlerServe r obj =
        some { status := 304, contentType := some obj.contentType,
               etag := some e.rev, lastModified := some e.serverModified,
               location := none, body := "" })
    ∧ (headerGet r.ifNoneMatch ≠ e.rev →
      dbhandlerServe r obj =
        some { status := 200, contentType := some obj.contentType,
               etag := some e.rev, lastModified := some e.serverModified,
               location := none, body := obj.data }) := by
  constructor <;> intro h <;> simp [dbhandlerServe, hpos, hentry, h]

/-- C6 witness: a matching `If-None-Match` value yields `304`, via the
amended statement at a concrete entry. -/
theorem c6_conditional_request_witness :
    (headerGet (some "rev1") = meta0.rev →
      dbhandlerServe ⟨"/x", some "rev1"⟩ objPos =
        some { status := 304, contentType := some objPos.contentType,
               etag := some meta0.rev,
               lastModified := some meta0.serverModified,
               location := none, body := "" })
    ∧ (headerGet (some "rev1") ≠ meta0.rev →
      dbhandlerServe ⟨"/x", some "rev1"⟩ objPos =
        some { status := 200, contentType := some objPos.contentType,
               etag := some meta0.rev,
               lastModified := some meta0.serverModified,
               location := none, body := objPos.data }) :=
  c6_conditional_request ⟨"/x", some "rev1"⟩ objPos meta0 rfl rfl
